import Mathlib

/-!
Verification of the PicoMidi core: the Roland System Exclusive codec
(`picomidi/message/sysex/roland.py`, `picomidi/sysex/conversion.py`) and the
streaming MIDI parser (`picomidi/parser/parser.py`), embedded shallowly.
Bytes are modelled as `Nat`; Python bitwise operators become `&&&`, `|||`,
`<<<`, `>>>` on `Nat`; functions that raise become `Except`-valued.
-/

namespace PicoMidi

/-! ### Checksum (`picomidi/sysex/conversion.py`, `calculate_checksum`) -/

/-- Embedding of `calculate_checksum`:
`(128 - (sum(data) & BitMask.LOW_7_BITS)) & BitMask.LOW_7_BITS`
where `BitMask.LOW_7_BITS = 0x7F`. -/
def calculate_checksum (data : List Nat) : Nat :=
  (128 - (data.sum &&& 0x7F)) &&& 0x7F

/-! ### Roland SysEx message (`picomidi/message/sysex/roland.py`) -/

/-- Fields of `RolandSysExMessage` (the dataclass, after `__post_init__`
normalisation; all byte fields already plain integers). -/
structure RolandSysExMessage where
  manufacturer_id : Nat
  device_id : Nat
  model_id : List Nat
  command : Nat
  address : List Nat
  data : List Nat
deriving DecidableEq, Repr

/-- The distinct `ValueError` raise sites of the Roland codec, one constructor
per distinct error message.  The first four and the field-range errors are
structural (the spec calls them FormatError); `checksumMismatch` is the
checksum failure (the spec calls it ChecksumError). -/
inductive RolandErr where
  | tooShort
  | badStart
  | badEnd
  | badManufacturer
  | badDeviceId
  | badModelIdLength
  | badModelIdByte
  | badAddressLength
  | badAddressByte
  | badDataByte
  | badCommand
  | checksumMismatch
deriving DecidableEq, Repr

/-- Embedding of `RolandSysExMessage.__post_init__` validation, in source
order: manufacturer, device id, model id length, model id bytes, address
length, address bytes, data bytes, command.  (All inputs here are already
integers, so the duck-typed coercions are identities.) -/
def RolandSysExMessage.mk? (manufacturer_id device_id : Nat)
    (model_id : List Nat) (command : Nat) (address : List Nat)
    (data : List Nat) : Except RolandErr RolandSysExMessage :=
  if manufacturer_id ≠ 0x41 then .error .badManufacturer
  else if ¬ ((0x10 ≤ device_id ∧ device_id ≤ 0x1F) ∨ device_id = 0x7F) then
    .error .badDeviceId
  else if model_id.length ≠ 4 then .error .badModelIdLength
  else if model_id.any (fun b => ¬ b ≤ 0x7F) then .error .badModelIdByte
  else if address.length ≠ 4 then .error .badAddressLength
  else if address.any (fun b => ¬ b ≤ 0x7F) then .error .badAddressByte
  else if data.any (fun b => ¬ b ≤ 0x7F) then .error .badDataByte
  else if ¬ command ≤ 0x7F then .error .badCommand
  else .ok ⟨manufacturer_id, device_id, model_id, command, address, data⟩

/-- A message is valid when `__post_init__` would have accepted its fields. -/
def RolandSysExMessage.valid (m : RolandSysExMessage) : Bool :=
  match RolandSysExMessage.mk? m.manufacturer_id m.device_id m.model_id
      m.command m.address m.data with
  | .ok _ => true
  | .error _ => false

/-- Embedding of the method `RolandSysExMessage.calculate_checksum`:
checksum of `self.address + self.data`. -/
def RolandSysExMessage.checksum (m : RolandSysExMessage) : Nat :=
  calculate_checksum (m.address ++ m.data)

/-- Embedding of `RolandSysExMessage.to_list` (and hence `to_bytes`):
`[F0, manufacturer_id, device_id] ++ model_id ++ [command] ++ address ++
data ++ [checksum, F7]`. -/
def RolandSysExMessage.to_list (m : RolandSysExMessage) : List Nat :=
  [0xF0, m.manufacturer_id, m.device_id] ++ m.model_id ++ [m.command]
    ++ m.address ++ m.data ++ [m.checksum, 0xF7]

/-- Embedding of the class method `RolandSysExMessage.from_bytes`.  Python
slices become `drop`/`take`, negative indices become length-relative
`getD`. -/
def RolandSysExMessage.from_bytes (d : List Nat) :
    Except RolandErr RolandSysExMessage :=
  if d.length < 13 then .error .tooShort
  else if d.getD 0 0 ≠ 0xF0 then .error .badStart
  else if d.getD (d.length - 1) 0 ≠ 0xF7 then .error .badEnd
  else if d.getD 1 0 ≠ 0x41 then .error .badManufacturer
  else
    let device_id := d.getD 2 0
    let model_id := (d.drop 3).take 4
    let command := d.getD 7 0
    let address := (d.drop 8).take 4
    let checksum_byte := d.getD (d.length - 2) 0
    let data_bytes := (d.take (d.length - 2)).drop 12
    match RolandSysExMessage.mk? (d.getD 1 0) device_id model_id command
        address data_bytes with
    | .error e => .error e
    | .ok message =>
      if message.checksum ≠ checksum_byte then .error .checksumMismatch
      else .ok message

/-! ### Arithmetic helper lemmas -/

/-- Masking with `0x7F` is reduction modulo 128. -/
lemma land_127_eq_mod (x : Nat) : x &&& 0x7F = x % 128 := by
  have h := Nat.and_pow_two_sub_one_eq_mod x 7
  norm_num at h
  exact h

/-- Unfolded arithmetic form of the checksum. -/
lemma calculate_checksum_eq_mod (data : List Nat) :
    calculate_checksum data = (128 - data.sum % 128) % 128 := by
  simp [calculate_checksum, land_127_eq_mod]

/-! ### C3: checksum invariant -/

/-- C3: for every 4-byte 7-bit-safe address and 7-bit-safe data sequence, the
checksum is in `[0, 127]`, `(sum(address ++ data) + checksum) % 128 = 0`, and
the checksum equals `(128 - sum(address ++ data) % 128) % 128`. -/
theorem checksum_invariant (address data : List Nat)
    (hlen : address.length = 4)
    (haddr : ∀ b ∈ address, b ≤ 127) (hdata : ∀ b ∈ data, b ≤ 127) :
    calculate_checksum (address ++ data) ≤ 127 ∧
    ((address ++ data).sum + calculate_checksum (address ++ data)) % 128 = 0 ∧
    calculate_checksum (address ++ data) =
      (128 - (address ++ data).sum % 128) % 128 := by
  rw [calculate_checksum_eq_mod]
  refine ⟨?_, ?_, rfl⟩ <;> omega

/-- Witness for C3 at a concrete address and data sequence. -/
theorem checksum_invariant_witness :
    ([0x18, 0, 0, 0x10] : List Nat).length = 4 ∧
    calculate_checksum ([0x18, 0, 0, 0x10] ++ [0x7F]) ≤ 127 ∧
    (([0x18, 0, 0, 0x10] ++ [0x7F] : List Nat).sum +
      calculate_checksum ([0x18, 0, 0, 0x10] ++ [0x7F])) % 128 = 0 := by
  refine ⟨by decide, ?_, ?_⟩ <;>
  · have h := checksum_invariant [0x18, 0, 0, 0x10] [0x7F] (by decide)
      (by decide) (by decide)
    tauto

/-! ### Validity characterisation -/

/-- A byte-range guard evaluates to false exactly on 7-bit-safe lists. -/
lemma any_over_127_eq_false (l : List Nat) (h : ∀ b ∈ l, b ≤ 0x7F) :
    (l.any fun b => ¬ b ≤ 0x7F) = false := by
  rw [List.any_eq_false]
  intro b hb
  simpa using h b hb

/-- Construction succeeds on fields satisfying all validation conditions. -/
lemma mk?_eq_ok_of (mi di c : Nat) (mo a d : List Nat)
    (h1 : mi = 0x41) (h2 : (0x10 ≤ di ∧ di ≤ 0x1F) ∨ di = 0x7F)
    (h3 : mo.length = 4) (h4 : ∀ b ∈ mo, b ≤ 0x7F)
    (h5 : a.length = 4) (h6 : ∀ b ∈ a, b ≤ 0x7F)
    (h7 : ∀ b ∈ d, b ≤ 0x7F) (h8 : c ≤ 0x7F) :
    RolandSysExMessage.mk? mi di mo c a d = .ok ⟨mi, di, mo, c, a, d⟩ := by
  have hmo : ¬ ∃ x ∈ mo, 127 < x := by
    rintro ⟨x, hx, hgt⟩; exact absurd (h4 x hx) (by omega)
  have ha : ¬ ∃ x ∈ a, 127 < x := by
    rintro ⟨x, hx, hgt⟩; exact absurd (h6 x hx) (by omega)
  have hd : ¬ ∃ x ∈ d, 127 < x := by
    rintro ⟨x, hx, hgt⟩; exact absurd (h7 x hx) (by omega)
  simp [RolandSysExMessage.mk?, h1, h2, h3, h5, h8, hmo, ha, hd]

/-- Successful construction implies all validation conditions and determines
the resulting message. -/
lemma mk?_eq_ok_inv (mi di c : Nat) (mo a d : List Nat)
    (msg : RolandSysExMessage)
    (h : RolandSysExMessage.mk? mi di mo c a d = .ok msg) :
    mi = 0x41 ∧ ((0x10 ≤ di ∧ di ≤ 0x1F) ∨ di = 0x7F) ∧
    mo.length = 4 ∧ (∀ b ∈ mo, b ≤ 0x7F) ∧
    a.length = 4 ∧ (∀ b ∈ a, b ≤ 0x7F) ∧
    (∀ b ∈ d, b ≤ 0x7F) ∧ c ≤ 0x7F ∧
    msg = ⟨mi, di, mo, c, a, d⟩ := by
  unfold RolandSysExMessage.mk? at h
  split_ifs at h with h1 h2 h3 h4 h5 h6 h7 h8
  injection h with hmsg
  rw [Bool.not_eq_true, List.any_eq_false] at h4 h6 h7
  refine ⟨by omega, h2, by omega, ?_, by omega, ?_, ?_, by omega,
    hmsg.symm⟩ <;>
  · intro b hb
    first
    | exact not_not.mp (by simpa using h4 b hb)
    | exact not_not.mp (by simpa using h6 b hb)
    | exact not_not.mp (by simpa using h7 b hb)

/-- A valid message is exactly one that `mk?` reconstructs from its own
fields. -/
lemma valid_iff_mk? (m : RolandSysExMessage) :
    m.valid = true ↔
      RolandSysExMessage.mk? m.manufacturer_id m.device_id m.model_id
        m.command m.address m.data = .ok m := by
  constructor
  · intro h
    unfold RolandSysExMessage.valid at h
    cases hmk : RolandSysExMessage.mk? m.manufacturer_id m.device_id
        m.model_id m.command m.address m.data with
    | ok msg =>
      obtain ⟨-, -, -, -, -, -, -, -, hmsg⟩ :=
        mk?_eq_ok_inv _ _ _ _ _ _ _ hmk
      rw [hmsg]
    | error e => rw [hmk] at h; simp at h
  · intro h
    unfold RolandSysExMessage.valid
    rw [h]

/-- Field conditions implied by validity. -/
lemma valid_fields (m : RolandSysExMessage) (h : m.valid = true) :
    m.manufacturer_id = 0x41 ∧
    ((0x10 ≤ m.device_id ∧ m.device_id ≤ 0x1F) ∨ m.device_id = 0x7F) ∧
    m.model_id.length = 4 ∧ (∀ b ∈ m.model_id, b ≤ 0x7F) ∧
    m.address.length = 4 ∧ (∀ b ∈ m.address, b ≤ 0x7F) ∧
    (∀ b ∈ m.data, b ≤ 0x7F) ∧ m.command ≤ 0x7F := by
  have h2 := mk?_eq_ok_inv _ _ _ _ _ _ _ ((valid_iff_mk? m).mp h)
  tauto

/-- A list of length 4 is an explicit four-element list. -/
lemma length_eq_four (l : List Nat) (h : l.length = 4) :
    ∃ b0 b1 b2 b3, l = [b0, b1, b2, b3] := by
  rcases l with _ | ⟨b0, l⟩; · simp at h
  rcases l with _ | ⟨b1, l⟩; · simp at h
  rcases l with _ | ⟨b2, l⟩; · simp at h
  rcases l with _ | ⟨b3, l⟩; · simp at h
  rcases l with _ | ⟨b4, l⟩
  · exact ⟨b0, b1, b2, b3, rfl⟩
  · simp only [List.length_cons] at h; omega

/-- Length of the serialization of any valid message. -/
lemma length_to_list_of_valid (m : RolandSysExMessage) (h : m.valid = true) :
    m.to_list.length = 14 + m.data.length := by
  obtain ⟨-, -, hmo, -, ha, -, -, -⟩ := valid_fields m h
  simp [RolandSysExMessage.to_list, hmo, ha]
  omega

/-! ### C2: serialized length -/

/-- C2 counterexample: a successfully constructed message with empty data
serializes to 14 bytes, not `13 + len(data) = 13` bytes as the claim states. -/
theorem to_list_length_claim_false :
    RolandSysExMessage.valid ⟨0x41, 0x10, [0, 0, 0, 0], 0x12, [0, 0, 0, 0], []⟩
      = true ∧
    ¬ (RolandSysExMessage.to_list
        ⟨0x41, 0x10, [0, 0, 0, 0], 0x12, [0, 0, 0, 0], []⟩).length =
      13 + ([] : List Nat).length := by
  decide

/-- C2 amended: `to_bytes` is deterministic (it is a function of the message
fields alone) and the total length is `14 + len(data)` for every successfully
constructed message. -/
theorem to_list_length (m : RolandSysExMessage) (h : m.valid = true) :
    m.to_list.length = 14 + m.data.length :=
  length_to_list_of_valid m h

/-- Witness for the amended C2 at a concrete message. -/
theorem to_list_length_witness :
    RolandSysExMessage.valid ⟨0x41, 0x10, [0, 0, 0, 0], 0x12, [0, 0, 0, 0], [9]⟩
      = true ∧
    (RolandSysExMessage.to_list
        ⟨0x41, 0x10, [0, 0, 0, 0], 0x12, [0, 0, 0, 0], [9]⟩).length = 14 + 1 :=
  ⟨by decide, to_list_length _ (by decide)⟩

/-! ### C1: SysEx round trip -/

/-- Embedding of `to_bytes`, which is `bytes(self.to_list())`; on the byte
level it is the same sequence as `to_list`. -/
def RolandSysExMessage.to_bytes (m : RolandSysExMessage) : List Nat :=
  m.to_list

/-- Evaluation of `from_bytes` on any byte sequence of the exact shape
produced by `to_list`: the structural checks pass and the result reduces to
construction plus the checksum comparison. -/
lemma from_bytes_explicit (di c chk m0 m1 m2 m3 a0 a1 a2 a3 : Nat)
    (data : List Nat) :
    RolandSysExMessage.from_bytes
      (240 :: 65 :: di :: m0 :: m1 :: m2 :: m3 :: c :: a0 :: a1 :: a2 :: a3
        :: (data ++ [chk, 247])) =
    match RolandSysExMessage.mk? 0x41 di [m0, m1, m2, m3] c [a0, a1, a2, a3]
        data with
    | .error e => .error e
    | .ok message =>
      if message.checksum ≠ chk then .error .checksumMismatch
      else .ok message := by
  have hlen : (240 :: 65 :: di :: m0 :: m1 :: m2 :: m3 :: c :: a0 :: a1 :: a2
      :: a3 :: (data ++ [chk, 247])).length = data.length + 14 := by
    simp
  have h247 : (240 :: 65 :: di :: m0 :: m1 :: m2 :: m3 :: c :: a0 :: a1 :: a2
      :: a3 :: (data ++ [chk, 247])).getD (data.length + 13) 0 = 247 := by
    simp only [List.getD_cons_succ]
    rw [List.getD_append_right _ _ _ _ (by omega)]
    have h1 : data.length + 1 - data.length = 1 := by omega
    rw [h1]
    rfl
  have hchk : (240 :: 65 :: di :: m0 :: m1 :: m2 :: m3 :: c :: a0 :: a1 :: a2
      :: a3 :: (data ++ [chk, 247])).getD (data.length + 12) 0 = chk := by
    simp only [List.getD_cons_succ]
    rw [List.getD_append_right _ _ _ _ (by omega)]
    have h1 : data.length - data.length = 0 := by omega
    rw [h1]
    rfl
  rw [RolandSysExMessage.from_bytes, hlen]
  rw [if_neg (by omega)]
  have e1 : data.length + 14 - 1 = data.length + 13 := by omega
  have e2 : data.length + 14 - 2 = data.length + 12 := by omega
  rw [e1, e2]
  rw [if_neg (fun hne => hne rfl)]
  rw [if_neg (fun hne => hne h247)]
  rw [if_neg (fun hne => hne rfl)]
  have htake : (data ++ [chk, 247]).take data.length = data :=
    List.take_left' rfl
  simp only [List.getD_cons_zero, List.getD_cons_succ, List.take_succ_cons,
    List.drop_succ_cons, List.drop_zero, List.take_zero, hchk, htake]

/-- C1: for every successfully constructed `RolandSysExMessage`,
`from_bytes(to_bytes(frame))` succeeds and returns a message with identical
device_id, model_id, command, address and data (indeed, the identical
message). -/
theorem sysex_round_trip (m : RolandSysExMessage) (h : m.valid = true) :
    RolandSysExMessage.from_bytes m.to_bytes = .ok m := by
  obtain ⟨h1, h2, hmo, h4, ha, h6, h7, h8⟩ := valid_fields m h
  obtain ⟨m0, m1, m2, m3, hmoeq⟩ := length_eq_four m.model_id hmo
  obtain ⟨a0, a1, a2, a3, haeq⟩ := length_eq_four m.address ha
  have hlist : m.to_bytes = 240 :: 65 :: m.device_id :: m0 :: m1 :: m2 :: m3
      :: m.command :: a0 :: a1 :: a2 :: a3
      :: (m.data ++ [m.checksum, 247]) := by
    simp [RolandSysExMessage.to_bytes, RolandSysExMessage.to_list, h1, hmoeq,
      haeq]
  rw [hlist, from_bytes_explicit]
  have hmk : RolandSysExMessage.mk? 0x41 m.device_id [m0, m1, m2, m3]
      m.command [a0, a1, a2, a3] m.data =
      .ok ⟨0x41, m.device_id, [m0, m1, m2, m3], m.command, [a0, a1, a2, a3],
        m.data⟩ :=
    mk?_eq_ok_of _ _ _ _ _ _ rfl h2 rfl (hmoeq ▸ h4) rfl (haeq ▸ h6) h7 h8
  rw [hmk]
  have hmsg : (⟨0x41, m.device_id, [m0, m1, m2, m3], m.command,
      [a0, a1, a2, a3], m.data⟩ : RolandSysExMessage) = m := by
    rw [← h1, ← hmoeq, ← haeq]
  rw [hmsg]
  have hcheck : m.checksum = m.checksum := rfl
  simp

/-- Witness for C1 at a concrete valid message. -/
theorem sysex_round_trip_witness :
    RolandSysExMessage.valid
      ⟨0x41, 0x10, [0, 0, 0, 0x0E], 0x12, [0x18, 0, 0, 0x10], [0x7F]⟩
      = true ∧
    RolandSysExMessage.from_bytes
      (RolandSysExMessage.to_bytes
        ⟨0x41, 0x10, [0, 0, 0, 0x0E], 0x12, [0x18, 0, 0, 0x10], [0x7F]⟩) =
      .ok ⟨0x41, 0x10, [0, 0, 0, 0x0E], 0x12, [0x18, 0, 0, 0x10], [0x7F]⟩ :=
  ⟨by decide, sysex_round_trip _ (by decide)⟩

/-! ### C7: checksum failure is a distinct error -/

/-- C7: on a structurally valid byte sequence (length at least 13, delimiters
0xF0/0xF7, manufacturer 0x41, all parsed fields passing construction) whose
second-to-last byte differs from the checksum computed over the parsed
address and data, `from_bytes` fails with `checksumMismatch`, an error
distinct from every structural error. -/
theorem checksum_mismatch_distinct (d : List Nat) (msg : RolandSysExMessage)
    (hlen : 13 ≤ d.length) (hstart : d.getD 0 0 = 0xF0)
    (hend : d.getD (d.length - 1) 0 = 0xF7) (hman : d.getD 1 0 = 0x41)
    (hmk : RolandSysExMessage.mk? (d.getD 1 0) (d.getD 2 0)
        ((d.drop 3).take 4) (d.getD 7 0) ((d.drop 8).take 4)
        ((d.take (d.length - 2)).drop 12) = .ok msg)
    (hbad : msg.checksum ≠ d.getD (d.length - 2) 0) :
    RolandSysExMessage.from_bytes d = .error .checksumMismatch ∧
    ∀ e ∈ ([.tooShort, .badStart, .badEnd, .badManufacturer, .badDeviceId,
        .badModelIdLength, .badModelIdByte, .badAddressLength,
        .badAddressByte, .badDataByte, .badCommand] : List RolandErr),
      RolandErr.checksumMismatch ≠ e := by
  refine ⟨?_, by decide⟩
  rw [RolandSysExMessage.from_bytes]
  rw [if_neg (by omega)]
  rw [if_neg (fun hne => hne hstart)]
  rw [if_neg (fun hne => hne hend)]
  rw [if_neg (fun hne => hne hman)]
  show (match RolandSysExMessage.mk? (d.getD 1 0) (d.getD 2 0)
      ((d.drop 3).take 4) (d.getD 7 0) ((d.drop 8).take 4)
      ((d.take (d.length - 2)).drop 12) with
    | Except.error e => Except.error e
    | Except.ok message =>
      if message.checksum ≠ d.getD (d.length - 2) 0 then
        Except.error RolandErr.checksumMismatch
      else Except.ok message) = Except.error RolandErr.checksumMismatch
  rw [hmk]
  show (if msg.checksum ≠ d.getD (d.length - 2) 0 then
      Except.error RolandErr.checksumMismatch else Except.ok msg) =
    Except.error RolandErr.checksumMismatch
  rw [if_pos hbad]

/-- Witness for C7: a 14-byte frame with correct structure and a wrong
checksum byte. -/
theorem checksum_mismatch_distinct_witness :
    RolandSysExMessage.from_bytes
      [0xF0, 0x41, 0x10, 0, 0, 0, 0, 0x12, 0, 0, 0, 0, 5, 0xF7] =
      .error .checksumMismatch :=
  (checksum_mismatch_distinct
    [0xF0, 0x41, 0x10, 0, 0, 0, 0, 0x12, 0, 0, 0, 0, 5, 0xF7]
    ⟨0x41, 0x10, [0, 0, 0, 0], 0x12, [0, 0, 0, 0], []⟩
    (by decide) (by decide) (by decide) (by decide) (by rfl)
    (by decide)).1

/-! ### C10: thirteen-byte inputs can parse -/

/-- C10: `from_bytes` accepts some 13-byte inputs (where the byte at index 11
serves both as the fourth address byte and as the checksum byte, with empty
data), although the shortest output of `to_list` for a valid message is 14
bytes. -/
theorem thirteen_byte_accepted :
    RolandSysExMessage.from_bytes
        [0xF0, 0x41, 0x10, 0, 0, 0, 0, 0, 0, 0, 0, 0x40, 0xF7] =
      .ok ⟨0x41, 0x10, [0, 0, 0, 0], 0, [0, 0, 0, 0x40], []⟩ ∧
    ([0xF0, 0x41, 0x10, 0, 0, 0, 0, 0, 0, 0, 0, 0x40, 0xF7] :
        List Nat).length = 13 ∧
    ∀ m : RolandSysExMessage, m.valid = true → 14 ≤ m.to_list.length := by
  refine ⟨by rfl, by decide, ?_⟩
  intro m hm
  rw [length_to_list_of_valid m hm]
  omega

/-- Witness for C10 at a concrete valid message. -/
theorem thirteen_byte_accepted_witness :
    RolandSysExMessage.valid
        ⟨0x41, 0x10, [0, 0, 0, 0], 0x12, [0, 0, 0, 0], []⟩ = true ∧
    14 ≤ (RolandSysExMessage.to_list
        ⟨0x41, 0x10, [0, 0, 0, 0], 0x12, [0, 0, 0, 0], []⟩).length :=
  ⟨by decide, thirteen_byte_accepted.2.2 _ (by decide)⟩

/-! ### Status classification (`picomidi/core/status.py`) -/

/-- Embedding of `Status.is_channel_voice`: `0x80 <= status <= 0xEF`. -/
abbrev Status.is_channel_voice (status : Nat) : Prop :=
  0x80 ≤ status ∧ status ≤ 0xEF

/-- Embedding of `Status.is_system_realtime`: `0xF8 <= status <= 0xFF`. -/
abbrev Status.is_system_realtime (status : Nat) : Prop :=
  0xF8 ≤ status ∧ status ≤ 0xFF

/-- Embedding of `Status.get_message_type`: `status & BitMask.HIGH_4_BITS`. -/
def Status.get_message_type (status : Nat) : Nat :=
  status &&& 0xF0

/-- Embedding of `Status.get_channel` in the channel-voice case:
`status & BitMask.LOW_4_BITS`. -/
def Status.get_channel (status : Nat) : Nat :=
  status &&& 0x0F

/-- Embedding of `Status.make_channel_voice`:
`status_base | (channel & BitMask.LOW_4_BITS)`.  (The source raises for a
channel outside 0-15; callers pass `Channel` enum values, which are 0-15, so
the guard is vacuous and the theorems below carry the 0-15 bound as a
hypothesis.) -/
def Status.make_channel_voice (status_base channel : Nat) : Nat :=
  status_base ||| (channel &&& 0x0F)

/-! ### 7-bit and 14-bit conversions (`picomidi/utils/conversion.py`) -/

/-- Embedding of `combine_7bit_msb_lsb`. -/
def combine_7bit_msb_lsb (msb lsb : Nat) : Nat :=
  ((msb &&& 0x7F) <<< 7) ||| (lsb &&& 0x7F)

/-- Embedding of `split_14bit_to_7bit`, returning `(msb, lsb)`. -/
def split_14bit_to_7bit (value : Nat) : Nat × Nat :=
  let v := value &&& 0x3FFF
  ((v >>> 7) &&& 0x7F, v &&& 0x7F)

/-! ### Pitch-bend value (`picomidi/core/types.py`, `PitchBendValue`) -/

/-- Errors the parser and the value-object constructors can raise. -/
inductive ParseErr where
  | realtimeUnsupported
  | aftertouchUnsupported
  | rangeErr
deriving DecidableEq, Repr

/-- Embedding of `PitchBendValue.from_14bit`: range check, then signed
conversion by subtracting 8192 (`ValueError` on a value outside 0-16383,
modelled as `rangeErr`). -/
def PitchBendValue.from_14bit (value : Nat) : Except ParseErr Int :=
  if ¬ value ≤ 16383 then .error .rangeErr
  else .ok ((value : Int) - 8192)

/-- Embedding of `PitchBendValue.to_14bit`: `self.value + 8192`. -/
def PitchBendValue.to_14bit (value : Int) : Int :=
  value + 8192

/-! ### Message encoders (`picomidi/message/channel_voice/`) -/

/-- Embedding of `NoteOn.to_list`. -/
def NoteOn.to_list (channel note velocity : Nat) : List Nat :=
  [Status.make_channel_voice 0x90 channel, note, velocity]

/-- Embedding of `NoteOff.to_list` (with an explicitly supplied velocity). -/
def NoteOff.to_list (channel note velocity : Nat) : List Nat :=
  [Status.make_channel_voice 0x80 channel, note, velocity]

/-- Embedding of `ControlChange.to_list`. -/
def ControlChange.to_list (channel controller value : Nat) : List Nat :=
  [Status.make_channel_voice 0xB0 channel, controller, value]

/-- Embedding of `ProgramChange.to_list`. -/
def ProgramChange.to_list (channel program : Nat) : List Nat :=
  [Status.make_channel_voice 0xC0 channel, program]

/-- Embedding of `PitchBend.to_list`: status byte, then LSB, then MSB of the
14-bit unsigned value `value + 8192`. -/
def PitchBend.to_list (channel : Nat) (value : Int) : List Nat :=
  let unsigned_14bit := (PitchBendValue.to_14bit value).toNat
  let p := split_14bit_to_7bit unsigned_14bit
  [Status.make_channel_voice 0xE0 channel, p.2, p.1]

/-! ### Stream parser (`picomidi/parser/parser.py`) -/

/-- Decoded message objects the parser yields. -/
inductive Msg where
  | noteOn (channel note velocity : Nat)
  | noteOff (channel note velocity : Nat)
  | controlChange (channel controller value : Nat)
  | programChange (channel program : Nat)
  | pitchBend (channel : Nat) (value : Int)
deriving DecidableEq, Repr

/-- Embedding of `Parser._parse_note_message`: reads `buffer[1]` (note) and
`buffer[2]` (velocity), validates them through `Note`/`Velocity`/`Channel`
construction, and yields NoteOn only for message type 0x90 — every other
type routed here (0x80 and 0xA0) becomes NoteOff. -/
def parse_note_message (msg_type channel : Nat) (buffer : List Nat) :
    Except ParseErr Msg :=
  let note := buffer.getD 1 0
  if ¬ note ≤ 127 then .error .rangeErr
  else
    let velocity := buffer.getD 2 0
    if ¬ velocity ≤ 127 then .error .rangeErr
    else if ¬ channel ≤ 15 then .error .rangeErr
    else if msg_type = 0x90 then .ok (.noteOn channel note velocity)
    else .ok (.noteOff channel note velocity)

/-- Embedding of `Parser._parse_control_change`. -/
def parse_control_change (channel : Nat) (buffer : List Nat) :
    Except ParseErr Msg :=
  let controller := buffer.getD 1 0
  let value := buffer.getD 2 0
  if ¬ value ≤ 127 then .error .rangeErr
  else if ¬ channel ≤ 15 then .error .rangeErr
  else if ¬ controller ≤ 127 then .error .rangeErr
  else .ok (.controlChange channel controller value)

/-- Embedding of `Parser._parse_program_change`. -/
def parse_program_change (channel : Nat) (buffer : List Nat) :
    Except ParseErr Msg :=
  let program := buffer.getD 1 0
  if ¬ program ≤ 127 then .error .rangeErr
  else if ¬ channel ≤ 15 then .error .rangeErr
  else .ok (.programChange channel program)

/-- Embedding of `Parser._parse_pitch_bend`: LSB is `buffer[1]`, MSB is
`buffer[2]`, combined and converted to a signed value. -/
def parse_pitch_bend (channel : Nat) (buffer : List Nat) :
    Except ParseErr Msg :=
  let lsb := buffer.getD 1 0
  let msb := buffer.getD 2 0
  match PitchBendValue.from_14bit (combine_7bit_msb_lsb msb lsb) with
  | .error e => .error e
  | .ok value =>
    if ¬ channel ≤ 15 then .error .rangeErr
    else .ok (.pitchBend channel value)

/-- Result of fully iterating the generator returned by one `feed` call:
the messages yielded in order, the final buffer, the final running status,
and the exception (if any) that terminated the iteration. -/
structure ParseOutcome where
  msgs : List Msg
  buffer : List Nat
  running : Option Nat
  err : Option ParseErr
deriving DecidableEq, Repr

/-- Embedding of the `Parser._parse_buffer` loop, fully drained.  Each branch
mirrors one iteration of the `while` loop.  For System Realtime and Channel
Aftertouch the helper raises during evaluation of the `yield` argument, so
the buffer-trim statement after the `yield` is never reached and the buffer
is left unchanged. -/
def parseBuffer (buf : List Nat) (rs : Option Nat) : ParseOutcome :=
  match hbuf : buf with
  | [] => ⟨[], [], rs, none⟩
  | status :: _ =>
    if Status.is_system_realtime status then
      ⟨[], buf, rs, some .realtimeUnsupported⟩
    else if Status.is_channel_voice status then
      let msg_type := Status.get_message_type status
      let channel := Status.get_channel status
      if msg_type = 0x90 ∨ msg_type = 0x80 ∨ msg_type = 0xA0 then
        if buf.length < 3 then ⟨[], buf, rs, none⟩
        else
          match parse_note_message msg_type channel buf with
          | .error e => ⟨[], buf, rs, some e⟩
          | .ok m =>
            let o := parseBuffer (buf.drop 3) (some status)
            ⟨m :: o.msgs, o.buffer, o.running, o.err⟩
      else if msg_type = 0xB0 then
        if buf.length < 3 then ⟨[], buf, rs, none⟩
        else
          match parse_control_change channel buf with
          | .error e => ⟨[], buf, rs, some e⟩
          | .ok m =>
            let o := parseBuffer (buf.drop 3) (some status)
            ⟨m :: o.msgs, o.buffer, o.running, o.err⟩
      else if msg_type = 0xC0 then
        if buf.length < 2 then ⟨[], buf, rs, none⟩
        else
          match parse_program_change channel buf with
          | .error e => ⟨[], buf, rs, some e⟩
          | .ok m =>
            let o := parseBuffer (buf.drop 2) (some status)
            ⟨m :: o.msgs, o.buffer, o.running, o.err⟩
      else if msg_type = 0xD0 then
        if buf.length < 2 then ⟨[], buf, rs, none⟩
        else ⟨[], buf, rs, some .aftertouchUnsupported⟩
      else if msg_type = 0xE0 then
        if buf.length < 3 then ⟨[], buf, rs, none⟩
        else
          match parse_pitch_bend channel buf with
          | .error e => ⟨[], buf, rs, some e⟩
          | .ok m =>
            let o := parseBuffer (buf.drop 3) (some status)
            ⟨m :: o.msgs, o.buffer, o.running, o.err⟩
      else
        parseBuffer (buf.drop 1) rs
    else if status = 0xF0 then
      if ¬ buf.contains 0xF7 then ⟨[], buf, rs, none⟩
      else parseBuffer (buf.drop (buf.findIdx (fun b => b == 0xF7) + 1)) rs
    else
      parseBuffer (buf.drop 1) rs
termination_by buf.length
decreasing_by all_goals (subst hbuf; simp only [List.length_drop, List.length_cons]; omega)

/-- State of a `Parser` instance: the byte buffer and the running status. -/
structure ParserState where
  buffer : List Nat
  running_status : Option Nat
deriving DecidableEq, Repr

/-- Embedding of `Parser.feed`, fully drained: extend the buffer with the
new data, then parse. -/
def Parser.feed (st : ParserState) (data : List Nat) : ParseOutcome :=
  parseBuffer (st.buffer ++ data) st.running_status

/-! ### Status-byte arithmetic -/

/-- The low nibble of `base + ch` is `ch` when `base` is a multiple of 16
and `ch` fits in the nibble. -/
lemma get_channel_add (base ch : Nat) (hb : base % 16 = 0) (h : ch ≤ 15) :
    Status.get_channel (base + ch) = ch := by
  unfold Status.get_channel
  have hmod := Nat.and_pow_two_sub_one_eq_mod (base + ch) 4
  norm_num at hmod
  rw [hmod]
  omega

/-- The high nibble of a status byte built from a standard base. -/
lemma get_message_type_add (base ch : Nat)
    (hbase : base = 0x80 ∨ base = 0x90 ∨ base = 0xA0 ∨ base = 0xB0 ∨
      base = 0xC0 ∨ base = 0xD0 ∨ base = 0xE0) (h : ch ≤ 15) :
    Status.get_message_type (base + ch) = base := by
  unfold Status.get_message_type
  rcases hbase with rfl | rfl | rfl | rfl | rfl | rfl | rfl <;>
    (interval_cases ch <;> decide)

/-- `make_channel_voice` on a standard base and nibble-sized channel is plain
addition. -/
lemma make_channel_voice_add (base ch : Nat)
    (hbase : base = 0x80 ∨ base = 0x90 ∨ base = 0xA0 ∨ base = 0xB0 ∨
      base = 0xC0 ∨ base = 0xD0 ∨ base = 0xE0) (h : ch ≤ 15) :
    Status.make_channel_voice base ch = base + ch := by
  unfold Status.make_channel_voice
  rcases hbase with rfl | rfl | rfl | rfl | rfl | rfl | rfl <;>
    (interval_cases ch <;> decide)

/-- Channel-voice status bytes are not System Realtime. -/
lemma not_realtime_add (base ch : Nat) (hb : base ≤ 0xE0) (h : ch ≤ 15) :
    ¬ Status.is_system_realtime (base + ch) := by
  simp only [Status.is_system_realtime]
  omega

/-- Status bytes built from channel-voice bases are channel voice. -/
lemma channel_voice_add (base ch : Nat) (hb1 : 0x80 ≤ base)
    (hb2 : base ≤ 0xE0) (h : ch ≤ 15) :
    Status.is_channel_voice (base + ch) :=
  ⟨by omega, by omega⟩

/-! ### Parse-helper evaluation -/

/-- Evaluation of `_parse_note_message` on a buffer with in-range data
bytes. -/
lemma parse_note_message_eval (msg_type ch s b1 b2 : Nat) (rest : List Nat)
    (hb1 : b1 ≤ 127) (hb2 : b2 ≤ 127) (hch : ch ≤ 15) :
    parse_note_message msg_type ch (s :: b1 :: b2 :: rest) =
      .ok (if msg_type = 0x90 then .noteOn ch b1 b2
           else .noteOff ch b1 b2) := by
  simp only [parse_note_message, List.getD_cons_succ, List.getD_cons_zero]
  rw [if_neg (by omega), if_neg (by omega), if_neg (by omega)]
  split <;> rfl

/-- Evaluation of `_parse_control_change` on a buffer with in-range data
bytes. -/
lemma parse_control_change_eval (ch s b1 b2 : Nat) (rest : List Nat)
    (hb1 : b1 ≤ 127) (hb2 : b2 ≤ 127) (hch : ch ≤ 15) :
    parse_control_change ch (s :: b1 :: b2 :: rest) =
      .ok (.controlChange ch b1 b2) := by
  simp only [parse_control_change, List.getD_cons_succ, List.getD_cons_zero]
  rw [if_neg (by omega), if_neg (by omega), if_neg (by omega)]

/-- Evaluation of `_parse_program_change` on a buffer with an in-range data
byte. -/
lemma parse_program_change_eval (ch s b1 : Nat) (rest : List Nat)
    (hb1 : b1 ≤ 127) (hch : ch ≤ 15) :
    parse_program_change ch (s :: b1 :: rest) =
      .ok (.programChange ch b1) := by
  simp only [parse_program_change, List.getD_cons_succ, List.getD_cons_zero]
  rw [if_neg (by omega), if_neg (by omega)]

/-- The combination of two 7-bit values is at most 16383. -/
lemma combine_7bit_le (msb lsb : Nat) :
    combine_7bit_msb_lsb msb lsb ≤ 16383 := by
  unfold combine_7bit_msb_lsb
  have h1 : msb &&& 0x7F < 128 := by
    rw [land_127_eq_mod]; omega
  have h2 : lsb &&& 0x7F < 128 := by
    rw [land_127_eq_mod]; omega
  have h3 : (msb &&& 0x7F) <<< 7 < 2 ^ 14 := by
    rw [Nat.shiftLeft_eq]; norm_num; omega
  have h4 : lsb &&& 0x7F < 2 ^ 14 := by norm_num; omega
  have h5 := Nat.or_lt_two_pow h3 h4
  norm_num at h5
  omega

/-- Evaluation of `_parse_pitch_bend` on a 3-byte-headed buffer. -/
lemma parse_pitch_bend_eval (ch s lsb msb : Nat) (rest : List Nat)
    (hch : ch ≤ 15) :
    parse_pitch_bend ch (s :: lsb :: msb :: rest) =
      .ok (.pitchBend ch ((combine_7bit_msb_lsb msb lsb : Int) - 8192)) := by
  have hle := combine_7bit_le msb lsb
  simp only [parse_pitch_bend, List.getD_cons_succ, List.getD_cons_zero,
    PitchBendValue.from_14bit]
  rw [if_neg (by omega)]
  show (if ¬ ch ≤ 15 then Except.error ParseErr.rangeErr
    else Except.ok (Msg.pitchBend ch
      ((combine_7bit_msb_lsb msb lsb : Int) - 8192))) =
    Except.ok (Msg.pitchBend ch ((combine_7bit_msb_lsb msb lsb : Int) - 8192))
  rw [if_neg (by omega)]

/-! ### One-iteration lemmas for `parseBuffer` -/

/-- One loop iteration on a Note On message at the front of the buffer. -/
lemma parseBuffer_noteOn3 (ch b1 b2 : Nat) (rest : List Nat)
    (rs : Option Nat) (hch : ch ≤ 15) (hb1 : b1 ≤ 127) (hb2 : b2 ≤ 127) :
    parseBuffer ((0x90 + ch) :: b1 :: b2 :: rest) rs =
      ⟨Msg.noteOn ch b1 b2 :: (parseBuffer rest (some (0x90 + ch))).msgs,
        (parseBuffer rest (some (0x90 + ch))).buffer,
        (parseBuffer rest (some (0x90 + ch))).running,
        (parseBuffer rest (some (0x90 + ch))).err⟩ := by
  have hrt := not_realtime_add 0x90 ch (by norm_num) hch
  have hcv := channel_voice_add 0x90 ch (by norm_num) (by norm_num) hch
  have hmt := get_message_type_add 0x90 ch (by tauto) hch
  have hgc := get_channel_add 0x90 ch (by norm_num) hch
  have hpn := parse_note_message_eval 0x90 ch (0x90 + ch) b1 b2 rest hb1 hb2
    hch
  rw [parseBuffer.eq_def]
  simp only [hrt, hcv, hmt, hgc, hpn, if_true, if_false, List.length_cons,
    List.drop_succ_cons, List.drop_zero, if_pos, ite_true, ite_false]
  rw [if_pos hcv]
  norm_num

/-- One loop iteration on a Note Off message at the front of the buffer. -/
lemma parseBuffer_noteOff3 (ch b1 b2 : Nat) (rest : List Nat)
    (rs : Option Nat) (hch : ch ≤ 15) (hb1 : b1 ≤ 127) (hb2 : b2 ≤ 127) :
    parseBuffer ((0x80 + ch) :: b1 :: b2 :: rest) rs =
      ⟨Msg.noteOff ch b1 b2 :: (parseBuffer rest (some (0x80 + ch))).msgs,
        (parseBuffer rest (some (0x80 + ch))).buffer,
        (parseBuffer rest (some (0x80 + ch))).running,
        (parseBuffer rest (some (0x80 + ch))).err⟩ := by
  have hrt := not_realtime_add 0x80 ch (by norm_num) hch
  have hcv := channel_voice_add 0x80 ch (by norm_num) (by norm_num) hch
  have hmt := get_message_type_add 0x80 ch (by tauto) hch
  have hgc := get_channel_add 0x80 ch (by norm_num) hch
  have hpn := parse_note_message_eval 0x80 ch (0x80 + ch) b1 b2 rest hb1 hb2
    hch
  rw [parseBuffer.eq_def]
  simp only [hrt, hcv, hmt, hgc, hpn, if_true, if_false, List.length_cons,
    List.drop_succ_cons, List.drop_zero, if_pos, ite_true, ite_false]
  rw [if_pos hcv]
  norm_num

/-- One loop iteration on a Polyphonic Aftertouch message at the front of the
buffer: it is decoded through `_parse_note_message` and, since its type is
not 0x90, becomes a NoteOff. -/
lemma parseBuffer_polyAftertouch3 (ch b1 b2 : Nat) (rest : List Nat)
    (rs : Option Nat) (hch : ch ≤ 15) (hb1 : b1 ≤ 127) (hb2 : b2 ≤ 127) :
    parseBuffer ((0xA0 + ch) :: b1 :: b2 :: rest) rs =
      ⟨Msg.noteOff ch b1 b2 :: (parseBuffer rest (some (0xA0 + ch))).msgs,
        (parseBuffer rest (some (0xA0 + ch))).buffer,
        (parseBuffer rest (some (0xA0 + ch))).running,
        (parseBuffer rest (some (0xA0 + ch))).err⟩ := by
  have hrt := not_realtime_add 0xA0 ch (by norm_num) hch
  have hcv := channel_voice_add 0xA0 ch (by norm_num) (by norm_num) hch
  have hmt := get_message_type_add 0xA0 ch (by tauto) hch
  have hgc := get_channel_add 0xA0 ch (by norm_num) hch
  have hpn := parse_note_message_eval 0xA0 ch (0xA0 + ch) b1 b2 rest hb1 hb2
    hch
  rw [parseBuffer.eq_def]
  simp only [hrt, hcv, hmt, hgc, hpn, if_true, if_false, List.length_cons,
    List.drop_succ_cons, List.drop_zero, if_pos, ite_true, ite_false]
  rw [if_pos hcv]
  norm_num

/-- One loop iteration on a Control Change message at the front of the
buffer. -/
lemma parseBuffer_controlChange3 (ch b1 b2 : Nat) (rest : List Nat)
    (rs : Option Nat) (hch : ch ≤ 15) (hb1 : b1 ≤ 127) (hb2 : b2 ≤ 127) :
    parseBuffer ((0xB0 + ch) :: b1 :: b2 :: rest) rs =
      ⟨Msg.controlChange ch b1 b2
          :: (parseBuffer rest (some (0xB0 + ch))).msgs,
        (parseBuffer rest (some (0xB0 + ch))).buffer,
        (parseBuffer rest (some (0xB0 + ch))).running,
        (parseBuffer rest (some (0xB0 + ch))).err⟩ := by
  have hrt := not_realtime_add 0xB0 ch (by norm_num) hch
  have hcv := channel_voice_add 0xB0 ch (by norm_num) (by norm_num) hch
  have hmt := get_message_type_add 0xB0 ch (by tauto) hch
  have hgc := get_channel_add 0xB0 ch (by norm_num) hch
  have hpc := parse_control_change_eval ch (0xB0 + ch) b1 b2 rest hb1 hb2 hch
  rw [parseBuffer.eq_def]
  simp only [hrt, hcv, hmt, hgc, hpc, if_true, if_false, List.length_cons,
    List.drop_succ_cons, List.drop_zero, if_pos, ite_true, ite_false]
  rw [if_pos hcv]
  norm_num

/-- One loop iteration on a Program Change message at the front of the
buffer (a 2-byte message). -/
lemma parseBuffer_programChange2 (ch b1 : Nat) (rest : List Nat)
    (rs : Option Nat) (hch : ch ≤ 15) (hb1 : b1 ≤ 127) :
    parseBuffer ((0xC0 + ch) :: b1 :: rest) rs =
      ⟨Msg.programChange ch b1 :: (parseBuffer rest (some (0xC0 + ch))).msgs,
        (parseBuffer rest (some (0xC0 + ch))).buffer,
        (parseBuffer rest (some (0xC0 + ch))).running,
        (parseBuffer rest (some (0xC0 + ch))).err⟩ := by
  have hrt := not_realtime_add 0xC0 ch (by norm_num) hch
  have hcv := channel_voice_add 0xC0 ch (by norm_num) (by norm_num) hch
  have hmt := get_message_type_add 0xC0 ch (by tauto) hch
  have hgc := get_channel_add 0xC0 ch (by norm_num) hch
  have hpp := parse_program_change_eval ch (0xC0 + ch) b1 rest hb1 hch
  rw [parseBuffer.eq_def]
  simp only [hrt, hcv, hmt, hgc, hpp, if_true, if_false, List.length_cons,
    List.drop_succ_cons, List.drop_zero, if_pos, ite_true, ite_false]
  rw [if_pos hcv]
  norm_num

/-- One loop iteration on a Pitch Bend message at the front of the buffer. -/
lemma parseBuffer_pitchBend3 (ch lsb msb : Nat) (rest : List Nat)
    (rs : Option Nat) (hch : ch ≤ 15) :
    parseBuffer ((0xE0 + ch) :: lsb :: msb :: rest) rs =
      ⟨Msg.pitchBend ch ((combine_7bit_msb_lsb msb lsb : Int) - 8192)
          :: (parseBuffer rest (some (0xE0 + ch))).msgs,
        (parseBuffer rest (some (0xE0 + ch))).buffer,
        (parseBuffer rest (some (0xE0 + ch))).running,
        (parseBuffer rest (some (0xE0 + ch))).err⟩ := by
  have hrt := not_realtime_add 0xE0 ch (by norm_num) hch
  have hcv := channel_voice_add 0xE0 ch (by norm_num) (by norm_num) hch
  have hmt := get_message_type_add 0xE0 ch (by tauto) hch
  have hgc := get_channel_add 0xE0 ch (by norm_num) hch
  have hpb := parse_pitch_bend_eval ch (0xE0 + ch) lsb msb rest hch
  rw [parseBuffer.eq_def]
  simp only [hrt, hcv, hmt, hgc, hpb, if_true, if_false, List.length_cons,
    List.drop_succ_cons, List.drop_zero, if_pos, ite_true, ite_false]
  rw [if_pos hcv]
  norm_num

/-- A single buffered status byte of a 3-byte channel-voice note message
makes the loop stop and wait for more data. -/
lemma parseBuffer_noteOn_wait1 (ch : Nat) (rs : Option Nat) (hch : ch ≤ 15) :
    parseBuffer [0x90 + ch] rs = ⟨[], [0x90 + ch], rs, none⟩ := by
  have hrt := not_realtime_add 0x90 ch (by norm_num) hch
  have hcv := channel_voice_add 0x90 ch (by norm_num) (by norm_num) hch
  have hmt := get_message_type_add 0x90 ch (by tauto) hch
  rw [parseBuffer.eq_def]
  simp only [hrt, hcv, hmt, if_true, if_false, List.length_cons,
    List.length_nil, if_pos, ite_true, ite_false]
  rw [if_pos hcv]
  norm_num

/-- Two buffered bytes of a 3-byte note message still make the loop wait. -/
lemma parseBuffer_noteOn_wait2 (ch b1 : Nat) (rs : Option Nat)
    (hch : ch ≤ 15) :
    parseBuffer [0x90 + ch, b1] rs = ⟨[], [0x90 + ch, b1], rs, none⟩ := by
  have hrt := not_realtime_add 0x90 ch (by norm_num) hch
  have hcv := channel_voice_add 0x90 ch (by norm_num) (by norm_num) hch
  have hmt := get_message_type_add 0x90 ch (by tauto) hch
  rw [parseBuffer.eq_def]
  simp only [hrt, hcv, hmt, if_true, if_false, List.length_cons,
    List.length_nil, if_pos, ite_true, ite_false]
  rw [if_pos hcv]
  norm_num

/-- The empty buffer produces no messages and no error. -/
lemma parseBuffer_nil (rs : Option Nat) :
    parseBuffer [] rs = ⟨[], [], rs, none⟩ := by
  rw [parseBuffer.eq_def]

/-- The high nibble of a channel-voice status byte is one of the seven
channel-voice bases. -/
lemma hi_nibble_mem (s : Nat) (h1 : 0x80 ≤ s) (h2 : s ≤ 0xEF) :
    s &&& 0xF0 = 0x80 ∨ s &&& 0xF0 = 0x90 ∨ s &&& 0xF0 = 0xA0 ∨
    s &&& 0xF0 = 0xB0 ∨ s &&& 0xF0 = 0xC0 ∨ s &&& 0xF0 = 0xD0 ∨
    s &&& 0xF0 = 0xE0 := by
  interval_cases s <;> decide

/-- A channel-voice message with fewer buffered bytes than its length
requires makes the loop stop with no message, no error and the buffer
intact. -/
lemma parseBuffer_wait_incomplete (s : Nat) (t : List Nat) (rs : Option Nat)
    (h1 : 0x80 ≤ s) (h2 : s ≤ 0xEF)
    (hlen : (s :: t).length <
      (if s &&& 0xF0 = 0xC0 ∨ s &&& 0xF0 = 0xD0 then 2 else 3)) :
    parseBuffer (s :: t) rs = ⟨[], s :: t, rs, none⟩ := by
  have hrt : ¬ Status.is_system_realtime s := by
    simp only [Status.is_system_realtime]; omega
  have hcv : Status.is_channel_voice s := ⟨h1, h2⟩
  rw [parseBuffer.eq_def]
  rcases hi_nibble_mem s h1 h2 with hmt | hmt | hmt | hmt | hmt | hmt | hmt <;>
  · simp_all [Status.get_message_type, List.length_cons]
    obtain ⟨hc1, hc2⟩ := id hcv
    rw [if_neg (show ¬ Status.is_system_realtime s by
          simp only [Status.is_system_realtime]; omega),
        if_pos hcv]

/-- A buffered SysEx start with no terminating 0xF7 makes the loop stop with
no message, no error and the buffer intact. -/
lemma parseBuffer_sysex_wait (t : List Nat) (rs : Option Nat)
    (hno : (0xF0 :: t).contains 0xF7 = false) :
    parseBuffer (0xF0 :: t) rs = ⟨[], 0xF0 :: t, rs, none⟩ := by
  rw [parseBuffer.eq_def]
  simp [Status.is_system_realtime, Status.is_channel_voice, hno]
  intro hmem
  simp at hno
  tauto

/-! ### C4: streaming boundary and incomplete data -/

/-- C4: a 3-byte Note On fed one byte at a time yields nothing (and no
error) on the first two `feed` calls, leaving the bytes buffered, and yields
exactly the one NoteOn on the third; and in general, when the buffered data
is an incomplete channel-voice message or an unterminated SysEx frame, the
parser returns without any error and with the buffer intact, deferring to
the next `feed`. -/
theorem note_on_streaming_boundary :
    (∀ ch note vel : Nat, ch ≤ 15 → note ≤ 127 → vel ≤ 127 →
      Parser.feed ⟨[], none⟩ [Status.make_channel_voice 0x90 ch] =
        ⟨[], [Status.make_channel_voice 0x90 ch], none, none⟩ ∧
      Parser.feed ⟨[Status.make_channel_voice 0x90 ch], none⟩ [note] =
        ⟨[], [Status.make_channel_voice 0x90 ch, note], none, none⟩ ∧
      Parser.feed ⟨[Status.make_channel_voice 0x90 ch, note], none⟩ [vel] =
        ⟨[Msg.noteOn ch note vel], [],
          some (Status.make_channel_voice 0x90 ch), none⟩) ∧
    (∀ (s : Nat) (t : List Nat) (rs : Option Nat),
      0x80 ≤ s → s ≤ 0xEF →
      (s :: t).length <
        (if s &&& 0xF0 = 0xC0 ∨ s &&& 0xF0 = 0xD0 then 2 else 3) →
      parseBuffer (s :: t) rs = ⟨[], s :: t, rs, none⟩) ∧
    (∀ (t : List Nat) (rs : Option Nat),
      (0xF0 :: t).contains 0xF7 = false →
      parseBuffer (0xF0 :: t) rs = ⟨[], 0xF0 :: t, rs, none⟩) := by
  refine ⟨?_, parseBuffer_wait_incomplete, parseBuffer_sysex_wait⟩
  intro ch note vel hch hnote hvel
  rw [make_channel_voice_add 0x90 ch (by tauto) hch]
  refine ⟨?_, ?_, ?_⟩
  · show parseBuffer ([] ++ [0x90 + ch]) none = _
    rw [List.nil_append, parseBuffer_noteOn_wait1 ch none hch]
  · show parseBuffer ([0x90 + ch] ++ [note]) none = _
    rw [List.cons_append, List.nil_append,
      parseBuffer_noteOn_wait2 ch note none hch]
  · show parseBuffer ([0x90 + ch, note] ++ [vel]) none = _
    rw [List.cons_append, List.cons_append, List.nil_append,
      parseBuffer_noteOn3 ch note vel [] none hch hnote hvel,
      parseBuffer_nil]

/-- Witness for C4 at a concrete channel, note and velocity. -/
theorem note_on_streaming_boundary_witness :
    Parser.feed ⟨[Status.make_channel_voice 0x90 0, 0x3C], none⟩ [0x40] =
      ⟨[Msg.noteOn 0 0x3C 0x40], [],
        some (Status.make_channel_voice 0x90 0), none⟩ :=
  (note_on_streaming_boundary.1 0 0x3C 0x40 (by decide) (by decide)
    (by decide)).2.2

/-! ### C5: channel-voice round trips -/

/-- C5: feeding the canonical encoding of a NoteOn, NoteOff, ControlChange
or ProgramChange to a fresh parser yields exactly that message back, over
the whole valid field domains; and `ControlChange(0, 7, 100)` encodes to
`[0xB0, 0x07, 0x64]`. -/
theorem channel_voice_round_trip :
    (∀ ch note vel : Nat, ch ≤ 15 → note ≤ 127 → vel ≤ 127 →
      Parser.feed ⟨[], none⟩ (NoteOn.to_list ch note vel) =
        ⟨[Msg.noteOn ch note vel], [],
          some (Status.make_channel_voice 0x90 ch), none⟩) ∧
    (∀ ch note vel : Nat, ch ≤ 15 → note ≤ 127 → vel ≤ 127 →
      Parser.feed ⟨[], none⟩ (NoteOff.to_list ch note vel) =
        ⟨[Msg.noteOff ch note vel], [],
          some (Status.make_channel_voice 0x80 ch), none⟩) ∧
    (∀ ch ctrl val : Nat, ch ≤ 15 → ctrl ≤ 127 → val ≤ 127 →
      Parser.feed ⟨[], none⟩ (ControlChange.to_list ch ctrl val) =
        ⟨[Msg.controlChange ch ctrl val], [],
          some (Status.make_channel_voice 0xB0 ch), none⟩) ∧
    (∀ ch prog : Nat, ch ≤ 15 → prog ≤ 127 →
      Parser.feed ⟨[], none⟩ (ProgramChange.to_list ch prog) =
        ⟨[Msg.programChange ch prog], [],
          some (Status.make_channel_voice 0xC0 ch), none⟩) ∧
    ControlChange.to_list 0 7 100 = [0xB0, 0x07, 0x64] := by
  refine ⟨?_, ?_, ?_, ?_, by decide⟩
  · intro ch note vel hch hnote hvel
    rw [NoteOn.to_list, make_channel_voice_add 0x90 ch (by tauto) hch]
    show parseBuffer ([] ++ [0x90 + ch, note, vel]) none = _
    rw [List.nil_append,
      parseBuffer_noteOn3 ch note vel [] none hch hnote hvel, parseBuffer_nil]
  · intro ch note vel hch hnote hvel
    rw [NoteOff.to_list, make_channel_voice_add 0x80 ch (by tauto) hch]
    show parseBuffer ([] ++ [0x80 + ch, note, vel]) none = _
    rw [List.nil_append,
      parseBuffer_noteOff3 ch note vel [] none hch hnote hvel,
      parseBuffer_nil]
  · intro ch ctrl val hch hctrl hval
    rw [ControlChange.to_list, make_channel_voice_add 0xB0 ch (by tauto) hch]
    show parseBuffer ([] ++ [0xB0 + ch, ctrl, val]) none = _
    rw [List.nil_append,
      parseBuffer_controlChange3 ch ctrl val [] none hch hctrl hval,
      parseBuffer_nil]
  · intro ch prog hch hprog
    rw [ProgramChange.to_list, make_channel_voice_add 0xC0 ch (by tauto) hch]
    show parseBuffer ([] ++ [0xC0 + ch, prog]) none = _
    rw [List.nil_append, parseBuffer_programChange2 ch prog [] none hch hprog,
      parseBuffer_nil]

/-- Witness for C5 at concrete field values. -/
theorem channel_voice_round_trip_witness :
    Parser.feed ⟨[], none⟩ (NoteOn.to_list 2 60 100) =
      ⟨[Msg.noteOn 2 60 100], [],
        some (Status.make_channel_voice 0x90 2), none⟩ :=
  channel_voice_round_trip.1 2 60 100 (by decide) (by decide) (by decide)

/-! ### C6: pitch-bend round trip -/

/-- Recombining the split 7-bit halves of a 14-bit value gives it back. -/
lemma combine_split (u : Nat) (h : u ≤ 16383) :
    combine_7bit_msb_lsb ((u >>> 7) &&& 0x7F) (u &&& 0x7F) = u := by
  unfold combine_7bit_msb_lsb
  have hdiv : u >>> 7 = u / 128 := by
    rw [Nat.shiftRight_eq_div_pow]
  have hmod : u &&& 0x7F = u % 128 := land_127_eq_mod u
  have hsmall : u / 128 &&& 0x7F = u / 128 := by
    rw [land_127_eq_mod]
    exact Nat.mod_eq_of_lt (by omega)
  have hidem : u % 128 &&& 0x7F = u % 128 := by
    rw [land_127_eq_mod]
    exact Nat.mod_eq_of_lt (Nat.mod_lt _ (by norm_num))
  rw [hdiv, hmod, Nat.and_assoc]
  norm_num
  rw [hsmall, hidem, Nat.shiftLeft_eq]
  have hor := Nat.mul_add_lt_is_or
    (show u % 128 < 2 ^ 7 by norm_num; omega) (u / 128)
  norm_num at hor ⊢
  rw [Nat.mul_comm] at hor
  omega

/-- The masked 14-bit value used by `split_14bit_to_7bit` is the value
itself when it already fits in 14 bits. -/
lemma mask_14bit (u : Nat) (h : u ≤ 16383) : u &&& 0x3FFF = u := by
  have hm := Nat.and_pow_two_sub_one_eq_mod u 14
  norm_num at hm
  rw [hm]
  exact Nat.mod_eq_of_lt (by omega)

/-- C6: for every v in [-8192, 8191], `from_14bit(to_14bit(v))` has value v,
and encoding `PitchBend(channel, v)` through the 3-byte channel-voice layout
(status, LSB, MSB) and feeding the bytes to a fresh parser recovers v
exactly. -/
theorem pitch_bend_round_trip :
    (∀ v : Int, -8192 ≤ v → v ≤ 8191 →
      PitchBendValue.from_14bit (PitchBendValue.to_14bit v).toNat = .ok v) ∧
    (∀ (ch : Nat) (v : Int), ch ≤ 15 → -8192 ≤ v → v ≤ 8191 →
      Parser.feed ⟨[], none⟩ (PitchBend.to_list ch v) =
        ⟨[Msg.pitchBend ch v], [],
          some (Status.make_channel_voice 0xE0 ch), none⟩) := by
  constructor
  · intro v h1 h2
    rw [PitchBendValue.to_14bit, PitchBendValue.from_14bit]
    rw [if_neg (by omega)]
    congr 1
    omega
  · intro ch v hch h1 h2
    have hu : (PitchBendValue.to_14bit v).toNat ≤ 16383 := by
      rw [PitchBendValue.to_14bit]; omega
    rw [PitchBend.to_list]
    show Parser.feed ⟨[], none⟩
      [Status.make_channel_voice 0xE0 ch,
        (split_14bit_to_7bit (PitchBendValue.to_14bit v).toNat).2,
        (split_14bit_to_7bit (PitchBendValue.to_14bit v).toNat).1] = _
    rw [make_channel_voice_add 0xE0 ch (by tauto) hch]
    show parseBuffer ([] ++ [0xE0 + ch,
      (split_14bit_to_7bit (PitchBendValue.to_14bit v).toNat).2,
      (split_14bit_to_7bit (PitchBendValue.to_14bit v).toNat).1]) none = _
    rw [List.nil_append, parseBuffer_pitchBend3 _ _ _ [] none hch,
      parseBuffer_nil]
    simp only [split_14bit_to_7bit, mask_14bit _ hu]
    rw [combine_split _ hu]
    have hcast : ((PitchBendValue.to_14bit v).toNat : Int) = v + 8192 := by
      rw [PitchBendValue.to_14bit]; omega
    rw [hcast]
    norm_num

/-- Witness for C6 at a concrete channel and value. -/
theorem pitch_bend_round_trip_witness :
    Parser.feed ⟨[], none⟩ (PitchBend.to_list 1 (-100)) =
      ⟨[Msg.pitchBend 1 (-100)], [],
        some (Status.make_channel_voice 0xE0 1), none⟩ :=
  pitch_bend_round_trip.2 1 (-100) (by decide) (by decide) (by decide)

/-! ### C8: System Realtime raises before consuming -/

/-- C8 evaluation at the failing input: feeding a realtime byte followed by a
complete Note On raises the "not yet supported" condition with the buffer
unchanged — the realtime byte is NOT consumed (the trim after the `yield`
is unreachable because `_parse_system_realtime` raises first), so the
following bytes are never parsed, contrary to the claim that exactly one
byte is consumed. -/
theorem realtime_raises_without_consuming :
    Parser.feed ⟨[], none⟩ [0xF8, 0x90, 0x3C, 0x40] =
      ⟨[], [0xF8, 0x90, 0x3C, 0x40], none,
        some ParseErr.realtimeUnsupported⟩ ∧
    Parser.feed ⟨[0xF8, 0x90, 0x3C, 0x40], none⟩ [] =
      ⟨[], [0xF8, 0x90, 0x3C, 0x40], none,
        some ParseErr.realtimeUnsupported⟩ := by
  constructor <;>
    simp [Parser.feed, parseBuffer, Status.is_system_realtime]

/-! ### C9: Poly Aftertouch is reported as NoteOff -/

/-- C9: whenever the first buffered byte has a Polyphonic Aftertouch status
(0xA0 + channel) and at least three bytes are buffered (with 7-bit data
bytes), the parser consumes exactly those three bytes and yields a NoteOff
carrying the status byte's channel and the two data bytes, then continues
with the rest of the buffer. -/
theorem poly_aftertouch_as_note_off (ch b1 b2 : Nat) (rest : List Nat)
    (rs : Option Nat) (hch : ch ≤ 15) (hb1 : b1 ≤ 127) (hb2 : b2 ≤ 127) :
    parseBuffer ((0xA0 + ch) :: b1 :: b2 :: rest) rs =
      ⟨Msg.noteOff ch b1 b2 :: (parseBuffer rest (some (0xA0 + ch))).msgs,
        (parseBuffer rest (some (0xA0 + ch))).buffer,
        (parseBuffer rest (some (0xA0 + ch))).running,
        (parseBuffer rest (some (0xA0 + ch))).err⟩ :=
  parseBuffer_polyAftertouch3 ch b1 b2 rest rs hch hb1 hb2

/-- Witness for C9 at a concrete buffer. -/
theorem poly_aftertouch_as_note_off_witness :
    parseBuffer ((0xA0 + 5) :: 10 :: 20 :: []) none =
      ⟨Msg.noteOff 5 10 20 :: (parseBuffer [] (some (0xA0 + 5))).msgs,
        (parseBuffer [] (some (0xA0 + 5))).buffer,
        (parseBuffer [] (some (0xA0 + 5))).running,
        (parseBuffer [] (some (0xA0 + 5))).err⟩ :=
  poly_aftertouch_as_note_off 5 10 20 [] none (by decide) (by decide)
    (by decide)

end PicoMidi
